import Mathlib

/-!
Verification of the superpowers-chrome MCP action router against its
natural-language specification.  The two router generations present in the
repository are embedded: the library-based router (mcp/src/index.ts) and the
subprocess-based router (the untitled server source, buildChromeWsArgs).
External collaborators (chrome-ws-lib.js, the chrome-ws CLI) are represented
as an oracle of result-returning functions; router code is translated
branch by branch.
-/

namespace SuperpowersChrome

/-- The `BrowserAction` enum of mcp/src/index.ts (identical in both
generations). -/
inductive BrowserAction where
  | navigate
  | click
  | type
  | extract
  | screenshot
  | eval
  | select
  | attr
  | awaitElement
  | awaitText
  | newTab
  | closeTab
  | listTabs
deriving DecidableEq

/-- A browser target as reported by chrome-ws getTabs: id, title, url, type. -/
structure Tab where
  id : String
  title : String
  url : String
  type : String
deriving DecidableEq

/-- One record of the list_tabs result: the position-derived index plus the
tab fields (mcp/src/index.ts LIST_TABS map). -/
structure TabEntry where
  index : Nat
  id : String
  title : String
  url : String
  type : String
deriving DecidableEq

/-- One call into the chrome-ws library (the I/O the router dispatches);
used to trace which browser commands a router invocation issues. -/
inductive LibCall where
  | getTabs
  | startChrome
  | navigate (tab : Int) (url : String)
  | click (tab : Int) (sel : String)
  | fill (tab : Int) (sel text : String)
  | extractText (tab : Int) (sel : String)
  | getHtml (tab : Int) (sel : Option String)
  | evaluate (tab : Int) (code : String)
  | screenshot (tab : Int) (path : String) (sel : Option String)
  | selectOption (tab : Int) (sel value : String)
  | getAttribute (tab : Int) (sel name : String)
  | waitForElement (tab : Int) (sel : String) (timeoutMs : Int)
  | waitForText (tab : Int) (text : String) (timeoutMs : Int)
  | newTab
  | closeTab (tab : Int)
deriving DecidableEq

/-- The chrome-ws-lib surface consumed by mcp/src/index.ts, as an oracle of
result-returning functions (the library itself is an external collaborator). -/
structure ChromeLib where
  navigate : Int → String → Except String Unit
  click : Int → String → Except String Unit
  fill : Int → String → String → Except String Unit
  extractText : Int → String → Except String String
  getHtml : Int → Option String → Except String String
  evaluate : Int → String → Except String String
  screenshot : Int → String → Option String → Except String String
  selectOption : Int → String → String → Except String Unit
  getAttribute : Int → String → String → Except String String
  waitForElement : Int → String → Int → Except String Unit
  waitForText : Int → String → Int → Except String Unit
  newTab : Except String Tab
  closeTab : Int → Except String Unit
  getTabs : Except String (List Tab)
  startChrome : Except String Unit

/-- The validated input consumed by executeBrowserAction
(z.infer of UseBrowserParams in mcp/src/index.ts: payload is a single
optional string there). -/
structure UseBrowserInput where
  action : BrowserAction
  tab_index : Int
  selector : Option String
  payload : Option String
  timeout : Int
deriving DecidableEq

/-- JavaScript truthiness of an optional string: null/undefined and the
empty string are falsy. -/
def truthyStr : Option String → Bool
  | none => false
  | some s => s != ""

/-- The `x || default` idiom on an optional string (empty string falls back
to the default, as in JavaScript). -/
def jsOrStr : Option String → String → String
  | none, d => d
  | some s, d => if s = "" then d else s

/-- The `if (!x || typeof x !== "string") throw` validation pattern of the
routers: yields the string when truthy, the error message otherwise. -/
def requireStr (o : Option String) (msg : String) : Except String String :=
  match o with
  | none => Except.error msg
  | some s => if s = "" then Except.error msg else Except.ok s

/-- The `params.selector || undefined` idiom (screenshot): an empty-string
selector is passed on as absent. -/
def selOrNone (o : Option String) : Option String :=
  if truthyStr o then o else none

/-- The whole-page markdown expression of mcp/src/index.ts EXTRACT, after
its .replace-whitespace-collapse and .trim (apostrophes, braces, backticks
and backslashes written as escapes). -/
def mdExpr : String :=
  "Array.from(document.querySelectorAll(\x27h1, h2, h3, h4, h5, h6, p, a, li, pre, code\x27)) .map(el => \x7b const tag = el.tagName.toLowerCase(); const text = el.textContent.trim(); if (tag.startsWith(\x27h\x27)) return \x27#\x27.repeat(parseInt(tag[1])) + \x27 \x27 + text; if (tag === \x27a\x27) return \x27[\x27 + text + \x27](\x27 + el.href + \x27)\x27; if (tag === \x27li\x27) return \x27- \x27 + text; if (tag === \x27pre\x27 || tag === \x27code\x27) return \x27\\\x60\\\x60\\\x60\\n\x27 + text + \x27\\n\\\x60\\\x60\\\x60\x27; return text; \x7d) .filter(x => x) .join(\x27\\n\\n\x27)"

/-- The LIST_TABS mapping of mcp/src/index.ts: tabs.map((tab, idx) =>
(index: idx, id, title, url, type)). -/
def listTabsEntries (tabs : List Tab) : List TabEntry :=
  tabs.enum.map fun p => TabEntry.mk p.1 p.2.id p.2.title p.2.url p.2.type

/-- JSON rendering of one list_tabs record (stands in for JSON.stringify,
whose exact formatting no claim depends on). -/
def renderTabEntry (e : TabEntry) : String :=
  "\x7b\"index\": " ++ toString e.index ++ ", \"id\": \"" ++ e.id
    ++ "\", \"title\": \"" ++ e.title ++ "\", \"url\": \"" ++ e.url
    ++ "\", \"type\": \"" ++ e.type ++ "\"\x7d"

/-- JSON rendering of the list_tabs result array. -/
def renderTabEntries (es : List TabEntry) : String :=
  "[" ++ String.intercalate (", ") (es.map renderTabEntry) ++ "]"

/-- executeBrowserAction of mcp/src/index.ts, branch by branch; returns the
action result (or thrown error message) together with the list of library
calls dispatched. -/
def executeBrowserAction (lib : ChromeLib) (params : UseBrowserInput) :
    Except String String × List LibCall :=
  let tabIndex := params.tab_index
  match params.action with
  | .navigate =>
    match requireStr params.payload ("navigate requires payload with URL") with
    | .error m => (Except.error m, [])
    | .ok url =>
      ((lib.navigate tabIndex url).map fun _ => "Navigated to " ++ url,
        [LibCall.navigate tabIndex url])
  | .click =>
    match requireStr params.selector ("click requires selector") with
    | .error m => (Except.error m, [])
    | .ok sel =>
      ((lib.click tabIndex sel).map fun _ => "Clicked: " ++ sel,
        [LibCall.click tabIndex sel])
  | .type =>
    match requireStr params.selector ("type requires selector") with
    | .error m => (Except.error m, [])
    | .ok sel =>
      match requireStr params.payload ("type requires payload with text") with
      | .error m => (Except.error m, [])
      | .ok text =>
        ((lib.fill tabIndex sel text).map fun _ => "Typed into: " ++ sel,
          [LibCall.fill tabIndex sel text])
  | .extract =>
    let format := jsOrStr params.payload ("text")
    if truthyStr params.selector then
      let sel := (params.selector).getD ""
      if format = "text" then
        (lib.extractText tabIndex sel, [LibCall.extractText tabIndex sel])
      else if format = "html" then
        (lib.getHtml tabIndex (some sel), [LibCall.getHtml tabIndex (some sel)])
      else
        (Except.error ("selector-based extraction only supports \x27text\x27 or \x27html\x27 format"), [])
    else
      if format = "text" then
        (lib.evaluate tabIndex ("document.body.innerText"),
          [LibCall.evaluate tabIndex ("document.body.innerText")])
      else if format = "html" then
        (lib.getHtml tabIndex none, [LibCall.getHtml tabIndex none])
      else if format = "markdown" then
        (lib.evaluate tabIndex mdExpr, [LibCall.evaluate tabIndex mdExpr])
      else
        (Except.error ("extract format must be \x27text\x27, \x27html\x27, or \x27markdown\x27"), [])
  | .screenshot =>
    match requireStr params.payload ("screenshot requires payload with filename") with
    | .error m => (Except.error m, [])
    | .ok path =>
      ((lib.screenshot tabIndex path (selOrNone params.selector)).map
          fun p => "Screenshot saved to " ++ p,
        [LibCall.screenshot tabIndex path (selOrNone params.selector)])
  | .eval =>
    match requireStr params.payload ("eval requires payload with JavaScript code") with
    | .error m => (Except.error m, [])
    | .ok code =>
      (lib.evaluate tabIndex code, [LibCall.evaluate tabIndex code])
  | .select =>
    match requireStr params.selector ("select requires selector") with
    | .error m => (Except.error m, [])
    | .ok sel =>
      match requireStr params.payload ("select requires payload with option value") with
      | .error m => (Except.error m, [])
      | .ok value =>
        ((lib.selectOption tabIndex sel value).map fun _ => "Selected: " ++ value,
          [LibCall.selectOption tabIndex sel value])
  | .attr =>
    match requireStr params.selector ("attr requires selector") with
    | .error m => (Except.error m, [])
    | .ok sel =>
      match requireStr params.payload ("attr requires payload with attribute name") with
      | .error m => (Except.error m, [])
      | .ok name =>
        (lib.getAttribute tabIndex sel name, [LibCall.getAttribute tabIndex sel name])
  | .awaitElement =>
    match requireStr params.selector ("await_element requires selector") with
    | .error m => (Except.error m, [])
    | .ok sel =>
      ((lib.waitForElement tabIndex sel params.timeout).map
          fun _ => "Element found: " ++ sel,
        [LibCall.waitForElement tabIndex sel params.timeout])
  | .awaitText =>
    match requireStr params.payload ("await_text requires payload with text to wait for") with
    | .error m => (Except.error m, [])
    | .ok text =>
      ((lib.waitForText tabIndex text params.timeout).map
          fun _ => "Text found: " ++ text,
        [LibCall.waitForText tabIndex text params.timeout])
  | .newTab =>
    (lib.newTab.map fun t => "New tab created: " ++ t.id, [LibCall.newTab])
  | .closeTab =>
    ((lib.closeTab tabIndex).map fun _ => "Closed tab " ++ toString tabIndex,
      [LibCall.closeTab tabIndex])
  | .listTabs =>
    (lib.getTabs.map fun tabs => renderTabEntries (listTabsEntries tabs),
      [LibCall.getTabs])

/-- ensureChromeRunning of mcp/src/index.ts acting on the process-wide
chromeStarted flag: returns the outcome, the I/O performed, and the new
flag value. -/
def ensureChromeRunning (lib : ChromeLib) (chromeStarted : Bool) :
    Except String Unit × List LibCall × Bool :=
  if chromeStarted then (Except.ok (), [], chromeStarted)
  else
    match lib.getTabs with
    | .ok _ => (Except.ok (), [LibCall.getTabs], true)
    | .error _ =>
      match lib.startChrome with
      | .ok _ => (Except.ok (), [LibCall.getTabs, LibCall.startChrome], true)
      | .error e =>
        (Except.error ("Failed to auto-start Chrome: " ++ e),
          [LibCall.getTabs, LibCall.startChrome], false)

/-- A raw (pre-validation) payload value as the JSON schema can receive it:
absent/null, a single string, or an array of strings. -/
inductive RawPayload where
  | absent
  | str (s : String)
  | strs (l : List String)
deriving DecidableEq

/-- The raw tool arguments before Zod validation.  Numeric fields are
rationals so that non-integer inputs can be expressed. -/
structure RawInput where
  action : BrowserAction
  tab_index : Option ℚ
  selector : Option String
  payload : RawPayload
  timeout : Option ℚ
deriving DecidableEq

/-- The tab_index schema (both generations):
z.number().int().min(0).default(0). -/
def validateTabIndex : Option ℚ → Except String Int
  | none => Except.ok 0
  | some q =>
    if q.den = 1 then
      if 0 ≤ q then Except.ok q.num
      else Except.error ("tab_index must be greater than or equal to 0")
    else Except.error ("tab_index must be an integer")

/-- The timeout schema (both generations):
z.number().int().min(0).max(60000).default(5000). -/
def validateTimeout : Option ℚ → Except String Int
  | none => Except.ok 5000
  | some q =>
    if q.den = 1 then
      if 0 ≤ q then
        if q ≤ 60000 then Except.ok q.num
        else Except.error ("timeout must be less than or equal to 60000")
      else Except.error ("timeout must be greater than or equal to 0")
    else Except.error ("timeout must be an integer")

/-- The payload schema of mcp/src/index.ts: z.string().optional() — a lone
optional string; an array is a validation error. -/
def validatePayloadLib : RawPayload → Except String (Option String)
  | .absent => Except.ok none
  | .str s => Except.ok (some s)
  | .strs _ => Except.error ("payload must be a string")

/-- The payload schema of the subprocess-generation server:
z.union([z.string(), z.array(z.string())]).nullable().default(null). -/
def validatePayloadWs : RawPayload → Except String (Option (String ⊕ List String))
  | .absent => Except.ok none
  | .str s => Except.ok (some (Sum.inl s))
  | .strs l => Except.ok (some (Sum.inr l))

/-- z.object(UseBrowserParams).parse for the library generation. -/
def parseInput (r : RawInput) : Except String UseBrowserInput := do
  let tab ← validateTabIndex r.tab_index
  let pay ← validatePayloadLib r.payload
  let tmo ← validateTimeout r.timeout
  pure (UseBrowserInput.mk r.action tab r.selector pay tmo)

/-- One content item of an MCP tool result: the `type` tag (always the
string text here) and the text itself. -/
structure ToolContent where
  ctype : String
  text : String
deriving DecidableEq

/-- The value the use_browser handler returns to the MCP client: a bare
content list (the source sets no other field). -/
structure ToolResult where
  content : List ToolContent
deriving DecidableEq

/-- The catch block of the use_browser handler: a failure becomes a plain
text content item reading Error: followed by the message. -/
def errResult (m : String) : ToolResult :=
  ToolResult.mk [ToolContent.mk ("text") ("Error: " ++ m)]

/-- The success path of the use_browser handler: the action result string
as a plain text content item. -/
def okResult (s : String) : ToolResult :=
  ToolResult.mk [ToolContent.mk ("text") s]

/-- The use_browser tool handler of mcp/src/index.ts: Zod-parse, then
ensureChromeRunning, then executeBrowserAction, with every thrown error
caught and rendered via errResult.  Returns the tool result, the I/O
trace, and the new chromeStarted flag. -/
def handleUseBrowser (lib : ChromeLib) (chromeStarted : Bool) (raw : RawInput) :
    ToolResult × List LibCall × Bool :=
  match parseInput raw with
  | .error m => (errResult m, [], chromeStarted)
  | .ok params =>
    match ensureChromeRunning lib chromeStarted with
    | (.error m, tr, st) => (errResult m, tr, st)
    | (.ok _, tr, st) =>
      match executeBrowserAction lib params with
      | (.error m, tr2) => (errResult m, tr ++ tr2, st)
      | (.ok s, tr2) => (okResult s, tr ++ tr2, st)

/-- The validated input of the subprocess-generation server: its payload may
be a single string or a list of strings. -/
structure WsInput where
  action : BrowserAction
  tab_index : Int
  selector : Option String
  payload : Option (String ⊕ List String)
  timeout : Int
deriving DecidableEq

/-- JavaScript truthiness of the union payload: null and the empty string
are falsy; any array (even empty) is truthy. -/
def truthyPayload : Option (String ⊕ List String) → Bool
  | none => false
  | some (.inl s) => s != ""
  | some (.inr _) => true

/-- The `!payload || typeof payload !== "string"` check on the union
payload: yields the string when the payload is a truthy string. -/
def requireStrPayload (o : Option (String ⊕ List String)) (msg : String) :
    Except String String :=
  match o with
  | some (.inl s) => if s = "" then Except.error msg else Except.ok s
  | _ => Except.error msg

/-- The `params.payload || "markdown"` idiom on the union payload (extract
of the subprocess generation): falsy values give the default format. -/
def jsOrPayload : Option (String ⊕ List String) → String ⊕ List String
  | none => Sum.inl ("markdown")
  | some (.inl s) => if s = "" then Sum.inl ("markdown") else Sum.inl s
  | some (.inr l) => Sum.inr l

/-- buildChromeWsArgs of the subprocess-generation server, branch by
branch: the chrome-ws argv for the request, or the thrown error message. -/
def buildChromeWsArgs (params : WsInput) : Except String (List String) :=
  let tabIndex := toString params.tab_index
  match params.action with
  | .navigate =>
    match requireStrPayload params.payload ("navigate requires payload with URL") with
    | .error m => Except.error m
    | .ok url => Except.ok ["navigate", tabIndex, url]
  | .click =>
    match requireStr params.selector ("click requires selector") with
    | .error m => Except.error m
    | .ok sel => Except.ok ["click", tabIndex, sel]
  | .type =>
    match requireStr params.selector ("type requires selector") with
    | .error m => Except.error m
    | .ok sel =>
      match requireStrPayload params.payload ("type requires payload with text") with
      | .error m => Except.error m
      | .ok text => Except.ok ["type", tabIndex, sel, text]
  | .extract =>
    match jsOrPayload params.payload with
    | .inr _ => Except.error ("extract payload must be a string format")
    | .inl format =>
      if truthyStr params.selector then
        Except.ok ["extract", tabIndex, format, (params.selector).getD ""]
      else
        Except.ok ["extract", tabIndex, format]
  | .screenshot =>
    match requireStrPayload params.payload ("screenshot requires payload with filename") with
    | .error m => Except.error m
    | .ok path =>
      if truthyStr params.selector then
        Except.ok ["screenshot", tabIndex, path, (params.selector).getD ""]
      else
        Except.ok ["screenshot", tabIndex, path]
  | .eval =>
    match requireStrPayload params.payload ("eval requires payload with JavaScript code") with
    | .error m => Except.error m
    | .ok code => Except.ok ["eval", tabIndex, code]
  | .select =>
    match requireStr params.selector ("select requires selector") with
    | .error m => Except.error m
    | .ok sel =>
      if truthyPayload params.payload then
        let values := match params.payload with
          | some (.inr l) => l
          | some (.inl s) => [s]
          | none => []
        Except.ok (["select", tabIndex, sel] ++ values)
      else Except.error ("select requires payload with option value(s)")
  | .attr =>
    match requireStr params.selector ("attr requires selector") with
    | .error m => Except.error m
    | .ok sel =>
      match requireStrPayload params.payload ("attr requires payload with attribute name") with
      | .error m => Except.error m
      | .ok name => Except.ok ["attr", tabIndex, sel, name]
  | .awaitElement =>
    match requireStr params.selector ("await_element requires selector") with
    | .error m => Except.error m
    | .ok sel =>
      Except.ok ["wait-for", tabIndex, "element", sel, toString params.timeout]
  | .awaitText =>
    match requireStrPayload params.payload ("await_text requires payload with text to wait for") with
    | .error m => Except.error m
    | .ok text =>
      Except.ok ["wait-for", tabIndex, "text", text, toString params.timeout]
  | .newTab => Except.ok ["new"]
  | .closeTab => Except.ok ["close", tabIndex]
  | .listTabs => Except.ok ["tabs"]

/-- Modelled from the spec: the Command Correlator state of chrome-ws-lib
(whose source is not under src/) — a per-connection incrementing id counter
plus the set of ids of currently pending commands (spec section 4.2). -/
structure CorrelatorState where
  nextId : Nat
  pending : List Nat
deriving DecidableEq

/-- Modelled from the spec: a freshly opened connection starts its counter
small (at 1) with nothing pending. -/
def initCorrelator : CorrelatorState :=
  CorrelatorState.mk 1 []

/-- Modelled from the spec: issuing a command assigns the counter value as
the command id, increments the counter, and registers the id as pending. -/
def issueCommand (st : CorrelatorState) : Nat × CorrelatorState :=
  (st.nextId, CorrelatorState.mk (st.nextId + 1) (st.nextId :: st.pending))

/-- Modelled from the spec: a matching response (or a timeout) discards the
pending command with that id; the counter is untouched. -/
def resolveCommand (st : CorrelatorState) (i : Nat) : CorrelatorState :=
  CorrelatorState.mk st.nextId (st.pending.erase i)

/-- Modelled from the spec: reopening the connection fails all pending
commands and resets the counter — the only reset point. -/
def reopenConnection (_st : CorrelatorState) : CorrelatorState :=
  initCorrelator

/-- The correlator states reachable from a fresh connection through issue,
resolve and reopen. -/
inductive CorrReachable : CorrelatorState → Prop where
  | init : CorrReachable initCorrelator
  | issue {st : CorrelatorState} : CorrReachable st → CorrReachable (issueCommand st).2
  | res {st : CorrelatorState} (i : Nat) : CorrReachable st →
      CorrReachable (resolveCommand st i)
  | reopen {st : CorrelatorState} : CorrReachable st →
      CorrReachable (reopenConnection st)

/-- Every pending id on a reachable correlator state is below the counter. -/
lemma corr_pending_lt_nextId {st : CorrelatorState} (h : CorrReachable st) :
    ∀ i ∈ st.pending, i < st.nextId := by
  induction h with
  | init => intro i hi; simp [initCorrelator] at hi
  | issue _ ih =>
    intro i hi
    simp only [issueCommand] at hi ⊢
    rcases List.mem_cons.mp hi with h1 | h1
    · omega
    · exact Nat.lt_succ_of_lt (ih i h1)
  | res j _ ih =>
    intro i hi
    simp only [resolveCommand] at hi ⊢
    exact ih i (List.mem_of_mem_erase hi)
  | reopen _ _ =>
    intro i hi
    simp [reopenConnection, initCorrelator] at hi

/-- Modelled from the spec: the Condition Poller timeout message names the
waited-for selector/text and the elapsed duration (spec section 4.4). -/
def timeoutMsg (desc : String) (elapsed : Nat) : String :=
  "Timeout waiting for " ++ desc ++ " after " ++ toString elapsed ++ "ms"

/-- Modelled from the spec: the polling loop of the Condition Poller
(chrome-ws, not under src/) — evaluate the predicate, return on success,
fail once the deadline has passed, otherwise sleep one interval and retry.
Fuel bounds the recursion; awaitPredicate supplies enough fuel that the
zero-fuel branch is never reached before the deadline. -/
def pollLoop (pred : Nat → Bool) (interval timeoutMs : Nat) (desc : String) :
    Nat → Nat → Except String Nat
  | 0, elapsed => Except.error (timeoutMsg desc elapsed)
  | fuel + 1, elapsed =>
    if pred elapsed then Except.ok elapsed
    else if timeoutMs ≤ elapsed then Except.error (timeoutMsg desc elapsed)
    else pollLoop pred interval timeoutMs desc fuel (elapsed + interval)

/-- Modelled from the spec: awaitPredicate polls from elapsed time 0 at a
fixed interval until the predicate holds or the timeout passes; on success
it returns the elapsed time at which the predicate held. -/
def awaitPredicate (pred : Nat → Bool) (interval timeoutMs : Nat)
    (desc : String) : Except String Nat :=
  pollLoop pred interval timeoutMs desc (timeoutMs / interval + 1) 0

/-- A sample tab for concrete evaluations. -/
def stubTab : Tab :=
  Tab.mk ("tab-1") ("Example") ("http://example.com") ("page")

/-- A chrome-ws-lib oracle in which every call succeeds. -/
def libStub : ChromeLib :=
  ChromeLib.mk
    (fun _ _ => Except.ok ())
    (fun _ _ => Except.ok ())
    (fun _ _ _ => Except.ok ())
    (fun _ _ => Except.ok ("sample text"))
    (fun _ _ => Except.ok ("<html></html>"))
    (fun _ _ => Except.ok ("sample value"))
    (fun _ _ _ => Except.ok ("/tmp/page.png"))
    (fun _ _ _ => Except.ok ())
    (fun _ _ _ => Except.ok ("attr-value"))
    (fun _ _ _ => Except.ok ())
    (fun _ _ _ => Except.ok ())
    (Except.ok stubTab)
    (fun _ => Except.ok ())
    (Except.ok [])
    (Except.ok ())

/-- A chrome-ws-lib oracle for a Chrome that has exited: listing tabs and
starting Chrome both fail. -/
def libDead : ChromeLib :=
  ChromeLib.mk
    (fun _ _ => Except.error ("socket closed"))
    (fun _ _ => Except.error ("socket closed"))
    (fun _ _ _ => Except.error ("socket closed"))
    (fun _ _ => Except.error ("socket closed"))
    (fun _ _ => Except.error ("socket closed"))
    (fun _ _ => Except.error ("socket closed"))
    (fun _ _ _ => Except.error ("socket closed"))
    (fun _ _ _ => Except.error ("socket closed"))
    (fun _ _ _ => Except.error ("socket closed"))
    (fun _ _ _ => Except.error ("socket closed"))
    (fun _ _ _ => Except.error ("socket closed"))
    (Except.error ("socket closed"))
    (fun _ => Except.error ("socket closed"))
    (Except.error ("connect ECONNREFUSED 127.0.0.1:9222"))
    (Except.error ("spawn chrome ENOENT"))

/-- An oracle whose page evaluation happens to produce the same text the
handler uses for a validation failure. -/
def libEvalErrText : ChromeLib :=
  ChromeLib.mk
    (fun _ _ => Except.ok ())
    (fun _ _ => Except.ok ())
    (fun _ _ _ => Except.ok ())
    (fun _ _ => Except.ok ("sample text"))
    (fun _ _ => Except.ok ("<html></html>"))
    (fun _ _ => Except.ok ("Error: click requires selector"))
    (fun _ _ _ => Except.ok ("/tmp/page.png"))
    (fun _ _ _ => Except.ok ())
    (fun _ _ _ => Except.ok ("attr-value"))
    (fun _ _ _ => Except.ok ())
    (fun _ _ _ => Except.ok ())
    (Except.ok stubTab)
    (fun _ => Except.ok ())
    (Except.ok [])
    (Except.ok ())

/-- A click request with no selector supplied. -/
def rawClickNoSelector : RawInput :=
  RawInput.mk BrowserAction.click none none RawPayload.absent none

/-- An eval request on the sample page. -/
def rawEvalTitle : RawInput :=
  RawInput.mk BrowserAction.eval none none (RawPayload.str ("document.title")) none

/-- A two-tab listing used for concrete index checks. -/
def demoTabs : List Tab :=
  [Tab.mk ("A1") ("First") ("http://a") ("page"),
   Tab.mk ("B2") ("Second") ("http://b") ("page")]

/-- Actions whose validation demands a selector (click, type, select, attr,
await_element). -/
def needsSelector : BrowserAction → Bool
  | .click | .type | .select | .attr | .awaitElement => true
  | _ => false

/-- Actions whose validation demands a string payload (navigate, type,
screenshot, eval, select, attr, await_text). -/
def needsPayload : BrowserAction → Bool
  | .navigate | .type | .screenshot | .eval | .select | .attr | .awaitText => true
  | _ => false

/-- A falsy optional string fails the requireStr check. -/
lemma requireStr_err {o : Option String} {m : String} (h : truthyStr o = false) :
    requireStr o m = Except.error m := by
  cases o with
  | none => rfl
  | some s =>
    simp only [truthyStr, bne_eq_false_iff_eq] at h
    simp [requireStr, h]

/-- A falsy union payload fails the requireStrPayload check. -/
lemma requireStrPayload_err {o : Option (String ⊕ List String)} {m : String}
    (h : truthyPayload o = false) :
    requireStrPayload o m = Except.error m := by
  cases o with
  | none => rfl
  | some v =>
    cases v with
    | inl s =>
      simp only [truthyPayload, bne_eq_false_iff_eq] at h
      simp [requireStrPayload, h]
    | inr l => simp [truthyPayload] at h

/-- Claim C1 counterexample: a click request with no selector, arriving
while the chromeStarted flag is still false, surfaces the InvalidParameters
message only AFTER the handler has performed network I/O (the getTabs
liveness probe of ensureChromeRunning) — the error is not detected before
all network I/O, though no browser action command is dispatched. -/
theorem invalid_params_detected_after_chrome_io :
    (handleUseBrowser libStub false rawClickNoSelector).1
      = errResult ("click requires selector")
    ∧ (handleUseBrowser libStub false rawClickNoSelector).2.1 = [LibCall.getTabs]
    ∧ ([LibCall.getTabs] : List LibCall) ≠ [] :=
  ⟨rfl, rfl, by simp⟩

/-- Claim C1 (amended): every Action Request missing a required parameter
(click, type, select, attr, await_element without a truthy selector;
navigate, type, screenshot, eval, select, attr, await_text without a truthy
payload) makes executeBrowserAction fail with a descriptive error and
dispatch no browser command (no partial dispatch), and makes
buildChromeWsArgs of the subprocess generation fail likewise; the error is,
however, detected after ensureChromeRunning, so the Chrome liveness
check/auto-start network I/O can precede it. -/
theorem missing_params_fail_fast_no_dispatch
    (lib : ChromeLib) (p : UseBrowserInput) (q : WsInput) :
    ((needsSelector p.action = true ∧ truthyStr p.selector = false) ∨
      (needsPayload p.action = true ∧ truthyStr p.payload = false) →
      (∃ m, (executeBrowserAction lib p).1 = Except.error m)
        ∧ (executeBrowserAction lib p).2 = [])
    ∧ ((needsSelector q.action = true ∧ truthyStr q.selector = false) ∨
      (needsPayload q.action = true ∧ truthyPayload q.payload = false) →
      ∃ m, buildChromeWsArgs q = Except.error m) := by
  obtain ⟨a, ti, sel, pay, tmo⟩ := p
  obtain ⟨b, tiB, selB, payB, tmoB⟩ := q
  constructor
  · rintro (⟨hs, hsel⟩ | ⟨hp, hpay⟩)
    · cases a <;> simp [needsSelector] at hs <;>
        simp [executeBrowserAction, requireStr_err hsel]
    · cases a <;> simp [needsPayload] at hp
      · simp [executeBrowserAction, requireStr_err hpay]
      · rcases hreq : requireStr sel ("type requires selector") with m | s <;>
          simp [executeBrowserAction, hreq, requireStr_err hpay]
      · simp [executeBrowserAction, requireStr_err hpay]
      · simp [executeBrowserAction, requireStr_err hpay]
      · rcases hreq : requireStr sel ("select requires selector") with m | s <;>
          simp [executeBrowserAction, hreq, requireStr_err hpay]
      · rcases hreq : requireStr sel ("attr requires selector") with m | s <;>
          simp [executeBrowserAction, hreq, requireStr_err hpay]
      · simp [executeBrowserAction, requireStr_err hpay]
  · rintro (⟨hs, hsel⟩ | ⟨hp, hpay⟩)
    · cases b <;> simp [needsSelector] at hs <;>
        simp [buildChromeWsArgs, requireStr_err hsel]
    · cases b <;> simp [needsPayload] at hp
      · simp [buildChromeWsArgs, requireStrPayload_err hpay]
      · rcases hreq : requireStr selB ("type requires selector") with m | s <;>
          simp [buildChromeWsArgs, hreq, requireStrPayload_err hpay]
      · simp [buildChromeWsArgs, requireStrPayload_err hpay]
      · simp [buildChromeWsArgs, requireStrPayload_err hpay]
      · rcases hreq : requireStr selB ("select requires selector") with m | s <;>
          simp [buildChromeWsArgs, hreq, hpay]
      · rcases hreq : requireStr selB ("attr requires selector") with m | s <;>
          simp [buildChromeWsArgs, hreq, requireStrPayload_err hpay]
      · simp [buildChromeWsArgs, requireStrPayload_err hpay]

/-- Claim C1 witness: the amended theorem applied to a concrete payload-less
type request (library generation) and selector-less click (subprocess
generation). -/
theorem missing_params_fail_fast_no_dispatch_witness :
    ((∃ m, (executeBrowserAction libStub
        (UseBrowserInput.mk BrowserAction.type 0 (some ("#q")) none 5000)).1
          = Except.error m)
      ∧ (executeBrowserAction libStub
          (UseBrowserInput.mk BrowserAction.type 0 (some ("#q")) none 5000)).2 = [])
    ∧ (∃ m, buildChromeWsArgs
        (WsInput.mk BrowserAction.click 0 none none 5000) = Except.error m) :=
  ⟨(missing_params_fail_fast_no_dispatch libStub
      (UseBrowserInput.mk BrowserAction.type 0 (some ("#q")) none 5000)
      (WsInput.mk BrowserAction.click 0 none none 5000)).1
      (Or.inr ⟨rfl, rfl⟩),
    (missing_params_fail_fast_no_dispatch libStub
      (UseBrowserInput.mk BrowserAction.type 0 (some ("#q")) none 5000)
      (WsInput.mk BrowserAction.click 0 none none 5000)).2
      (Or.inl ⟨rfl, rfl⟩)⟩

/-- Claim C2: on every reachable per-connection correlator state, the next
issued command id is not currently pending (never reused while pending), it
is registered as pending, consecutive issues produce strictly increasing
ids from the incrementing counter (id then id+1), and the counter is reset
exactly by reopening the connection, which also clears pending — a counter,
not a wall-clock timestamp. -/
theorem correlator_ids_unique_monotone (st : CorrelatorState)
    (h : CorrReachable st) :
    (issueCommand st).1 ∉ st.pending
    ∧ (issueCommand st).1 < (issueCommand (issueCommand st).2).1
    ∧ (issueCommand (issueCommand st).2).1 = (issueCommand st).1 + 1
    ∧ (issueCommand st).1 ∈ (issueCommand st).2.pending
    ∧ reopenConnection st = initCorrelator := by
  refine ⟨?_, ?_, rfl, ?_, rfl⟩
  · simp only [issueCommand]
    intro hmem
    exact absurd (corr_pending_lt_nextId h _ hmem) (lt_irrefl _)
  · simp only [issueCommand]
    omega
  · simp [issueCommand]

/-- Claim C2 witness: the correlator theorem at the freshly opened
connection state. -/
theorem correlator_ids_unique_monotone_witness :
    (issueCommand initCorrelator).1 ∉ initCorrelator.pending
    ∧ (issueCommand initCorrelator).1
        < (issueCommand (issueCommand initCorrelator).2).1
    ∧ (issueCommand (issueCommand initCorrelator).2).1
        = (issueCommand initCorrelator).1 + 1
    ∧ (issueCommand initCorrelator).1 ∈ (issueCommand initCorrelator).2.pending
    ∧ reopenConnection initCorrelator = initCorrelator :=
  correlator_ids_unique_monotone initCorrelator CorrReachable.init

/-- With an always-false predicate and positive interval, the polling loop
reports a timeout whose elapsed time lies within one interval past the
deadline, provided it starts below the deadline-plus-interval bound with
enough fuel to reach the deadline. -/
lemma pollLoop_false_times (interval timeoutMs : Nat) (desc : String)
    (_hi : 0 < interval) :
    ∀ fuel elapsed, elapsed < timeoutMs + interval →
      timeoutMs ≤ elapsed + fuel * interval →
      ∃ e, pollLoop (fun _ => false) interval timeoutMs desc fuel elapsed
          = Except.error (timeoutMsg desc e)
        ∧ timeoutMs ≤ e ∧ e < timeoutMs + interval := by
  intro fuel
  induction fuel with
  | zero =>
    intro elapsed hlt hge
    exact ⟨elapsed, rfl, by simpa using hge, hlt⟩
  | succ fuel ih =>
    intro elapsed hlt hge
    by_cases h : timeoutMs ≤ elapsed
    · exact ⟨elapsed, by simp [pollLoop, h], h, hlt⟩
    · push_neg at h
      have hge2 : timeoutMs ≤ (elapsed + interval) + fuel * interval := by
        have hexp : (fuel + 1) * interval = fuel * interval + interval := by ring
        rw [hexp] at hge
        linarith
      obtain ⟨e, he, h1, h2⟩ := ih (elapsed + interval) (by omega) hge2
      refine ⟨e, ?_, h1, h2⟩
      simpa [pollLoop, Nat.not_le.mpr h] using he

/-- Claim C3: awaitPredicate with an always-true predicate succeeds at
elapsed time 0 (before any timeout elapses); with an always-false predicate
it fails with a Timeout message naming the awaited description and the
elapsed duration, which lies at the requested deadline within one poll
interval; and the router confirms await_element/await_text successes with
messages naming the selector/text. -/
theorem awaitPredicate_semantics (interval timeoutMs : Nat) (desc : String)
    (lib : ChromeLib) (t tmo : Int) (sel txt : String)
    (hi : 0 < interval) (hsel : sel ≠ "") (htxt : txt ≠ "")
    (hwe : lib.waitForElement t sel tmo = Except.ok ())
    (hwt : lib.waitForText t txt tmo = Except.ok ()) :
    awaitPredicate (fun _ => true) interval timeoutMs desc = Except.ok 0
    ∧ (∃ e, awaitPredicate (fun _ => false) interval timeoutMs desc
        = Except.error (timeoutMsg desc e)
        ∧ timeoutMs ≤ e ∧ e < timeoutMs + interval)
    ∧ (executeBrowserAction lib
        (UseBrowserInput.mk BrowserAction.awaitElement t (some sel) none tmo)).1
        = Except.ok ("Element found: " ++ sel)
    ∧ (executeBrowserAction lib
        (UseBrowserInput.mk BrowserAction.awaitText t none (some txt) tmo)).1
        = Except.ok ("Text found: " ++ txt) := by
  refine ⟨?_, ?_, ?_, ?_⟩
  · simp [awaitPredicate, pollLoop]
  · apply pollLoop_false_times interval timeoutMs desc hi
    · omega
    · have h1 := Nat.div_add_mod timeoutMs interval
      have h2 := Nat.mod_lt timeoutMs hi
      have h3 : (timeoutMs / interval + 1) * interval
          = interval * (timeoutMs / interval) + interval := by ring
      rw [Nat.zero_add, h3]
      linarith
  · simp [executeBrowserAction, requireStr, hsel, hwe, Except.map]
  · simp [executeBrowserAction, requireStr, htxt, hwt, Except.map]

/-- Claim C3 witness: the poller theorem at interval 100ms, timeout 250ms,
with concrete selector and text on the all-success oracle. -/
theorem awaitPredicate_semantics_witness :
    awaitPredicate (fun _ => true) 100 250 ("div.ready") = Except.ok 0
    ∧ (∃ e, awaitPredicate (fun _ => false) 100 250 ("div.ready")
        = Except.error (timeoutMsg ("div.ready") e) ∧ 250 ≤ e ∧ e < 250 + 100)
    ∧ (executeBrowserAction libStub
        (UseBrowserInput.mk BrowserAction.awaitElement 0 (some ("div.ready")) none 250)).1
        = Except.ok ("Element found: " ++ "div.ready")
    ∧ (executeBrowserAction libStub
        (UseBrowserInput.mk BrowserAction.awaitText 0 none (some ("Loaded!")) 250)).1
        = Except.ok ("Text found: " ++ "Loaded!") :=
  awaitPredicate_semantics 100 250 ("div.ready") libStub 0 250 ("div.ready")
    ("Loaded!") (by decide) (by decide) (by decide) rfl rfl

/-- Claim C4 counterexample: in the library router, an extract request WITH
a selector and format markdown is rejected (only text and html are accepted
for selector-scoped extraction) and dispatches nothing — markdown is not
accepted for element extraction. -/
theorem selector_markdown_rejected :
    (executeBrowserAction libStub
      (UseBrowserInput.mk BrowserAction.extract 0 (some ("div.content"))
        (some ("markdown")) 5000)).1
      = Except.error ("selector-based extraction only supports \x27text\x27 or \x27html\x27 format")
    ∧ (executeBrowserAction libStub
        (UseBrowserInput.mk BrowserAction.extract 0 (some ("div.content"))
          (some ("markdown")) 5000)).2 = [] :=
  ⟨rfl, rfl⟩

/-- Claim C4 (amended): whole-page extract accepts all three formats (text,
html, markdown); selector-scoped extract accepts text and html but the
library router rejects markdown with a selector; the subprocess router
forwards any string format with or without a selector. -/
theorem extract_format_support (lib : ChromeLib) (t tmo tB tmoB : Int)
    (sel selB fmtB : String) (hsel : sel ≠ "") (hselB : selB ≠ "")
    (hfmtB : fmtB ≠ "") :
    executeBrowserAction lib
        (UseBrowserInput.mk BrowserAction.extract t none (some ("text")) tmo)
      = (lib.evaluate t ("document.body.innerText"),
          [LibCall.evaluate t ("document.body.innerText")])
    ∧ executeBrowserAction lib
        (UseBrowserInput.mk BrowserAction.extract t none (some ("html")) tmo)
      = (lib.getHtml t none, [LibCall.getHtml t none])
    ∧ executeBrowserAction lib
        (UseBrowserInput.mk BrowserAction.extract t none (some ("markdown")) tmo)
      = (lib.evaluate t mdExpr, [LibCall.evaluate t mdExpr])
    ∧ executeBrowserAction lib
        (UseBrowserInput.mk BrowserAction.extract t (some sel) (some ("text")) tmo)
      = (lib.extractText t sel, [LibCall.extractText t sel])
    ∧ executeBrowserAction lib
        (UseBrowserInput.mk BrowserAction.extract t (some sel) (some ("html")) tmo)
      = (lib.getHtml t (some sel), [LibCall.getHtml t (some sel)])
    ∧ executeBrowserAction lib
        (UseBrowserInput.mk BrowserAction.extract t (some sel) (some ("markdown")) tmo)
      = (Except.error ("selector-based extraction only supports \x27text\x27 or \x27html\x27 format"), [])
    ∧ buildChromeWsArgs
        (WsInput.mk BrowserAction.extract tB (some selB) (some (Sum.inl fmtB)) tmoB)
      = Except.ok ["extract", toString tB, fmtB, selB]
    ∧ buildChromeWsArgs
        (WsInput.mk BrowserAction.extract tB none (some (Sum.inl ("markdown"))) tmoB)
      = Except.ok ["extract", toString tB, "markdown"] := by
  refine ⟨rfl, rfl, rfl, ?_, ?_, ?_, ?_, rfl⟩
  · simp [executeBrowserAction, truthyStr, jsOrStr, hsel]
  · simp [executeBrowserAction, truthyStr, jsOrStr, hsel]
  · simp [executeBrowserAction, truthyStr, jsOrStr, hsel]
  · simp [buildChromeWsArgs, jsOrPayload, truthyStr, hselB, hfmtB]

/-- Claim C4 witness: the amended theorem at a concrete selector and the
markdown format. -/
theorem extract_format_support_witness :
    executeBrowserAction libStub
        (UseBrowserInput.mk BrowserAction.extract 0 none (some ("text")) 5000)
      = (libStub.evaluate 0 ("document.body.innerText"),
          [LibCall.evaluate 0 ("document.body.innerText")])
    ∧ executeBrowserAction libStub
        (UseBrowserInput.mk BrowserAction.extract 0 none (some ("html")) 5000)
      = (libStub.getHtml 0 none, [LibCall.getHtml 0 none])
    ∧ executeBrowserAction libStub
        (UseBrowserInput.mk BrowserAction.extract 0 none (some ("markdown")) 5000)
      = (libStub.evaluate 0 mdExpr, [LibCall.evaluate 0 mdExpr])
    ∧ executeBrowserAction libStub
        (UseBrowserInput.mk BrowserAction.extract 0 (some ("div.c")) (some ("text")) 5000)
      = (libStub.extractText 0 ("div.c"), [LibCall.extractText 0 ("div.c")])
    ∧ executeBrowserAction libStub
        (UseBrowserInput.mk BrowserAction.extract 0 (some ("div.c")) (some ("html")) 5000)
      = (libStub.getHtml 0 (some ("div.c")), [LibCall.getHtml 0 (some ("div.c"))])
    ∧ executeBrowserAction libStub
        (UseBrowserInput.mk BrowserAction.extract 0 (some ("div.c")) (some ("markdown")) 5000)
      = (Except.error ("selector-based extraction only supports \x27text\x27 or \x27html\x27 format"), [])
    ∧ buildChromeWsArgs
        (WsInput.mk BrowserAction.extract 0 (some ("div.c")) (some (Sum.inl ("markdown"))) 5000)
      = Except.ok ["extract", toString (0 : Int), "markdown", "div.c"]
    ∧ buildChromeWsArgs
        (WsInput.mk BrowserAction.extract 0 none (some (Sum.inl ("markdown"))) 5000)
      = Except.ok ["extract", toString (0 : Int), "markdown"] :=
  extract_format_support libStub 0 5000 0 5000 ("div.c") ("div.c") ("markdown")
    (by decide) (by decide) (by decide)

/-- Claim C5 counterexample: the library generation declares payload as a
lone optional string, so a select request whose payload is a list of
strings is rejected at schema validation — the unified entry point of that
generation does not accept list payloads. -/
theorem lib_schema_rejects_list_payload :
    validatePayloadLib (RawPayload.strs ["US", "CA"])
      = Except.error ("payload must be a string")
    ∧ parseInput (RawInput.mk BrowserAction.select none
        (some ("select[name=country]")) (RawPayload.strs ["US", "CA"]) none)
      = Except.error ("payload must be a string") :=
  ⟨rfl, rfl⟩

/-- Claim C5 (amended): the subprocess generation accepts a payload that is
a single string or a list of strings, and its select action passes every
listed value through to chrome-ws; the library generation rejects list
payloads at validation. -/
theorem select_list_payload_subprocess_only (l : List String) (sel : String)
    (t tmo : Int) (hsel : sel ≠ "") :
    validatePayloadWs (RawPayload.strs l) = Except.ok (some (Sum.inr l))
    ∧ validatePayloadWs (RawPayload.str ("US")) = Except.ok (some (Sum.inl ("US")))
    ∧ buildChromeWsArgs (WsInput.mk BrowserAction.select t (some sel)
        (some (Sum.inr l)) tmo)
      = Except.ok (["select", toString t, sel] ++ l)
    ∧ validatePayloadLib (RawPayload.strs l) = Except.error ("payload must be a string") := by
  refine ⟨rfl, rfl, ?_, rfl⟩
  simp [buildChromeWsArgs, requireStr, hsel, truthyPayload]

/-- Claim C5 witness: the amended theorem at the two-value list payload. -/
theorem select_list_payload_subprocess_only_witness :
    validatePayloadWs (RawPayload.strs ["US", "CA"])
      = Except.ok (some (Sum.inr ["US", "CA"]))
    ∧ validatePayloadWs (RawPayload.str ("US")) = Except.ok (some (Sum.inl ("US")))
    ∧ buildChromeWsArgs (WsInput.mk BrowserAction.select 0
        (some ("select[name=country]")) (some (Sum.inr ["US", "CA"])) 5000)
      = Except.ok (["select", toString (0 : Int), "select[name=country]"] ++ ["US", "CA"])
    ∧ validatePayloadLib (RawPayload.strs ["US", "CA"])
      = Except.error ("payload must be a string") :=
  select_list_payload_subprocess_only ["US", "CA"] ("select[name=country]")
    0 5000 (by decide)

/-- Claim C6: the list_tabs mapping preserves length, gives the entry at
position i the index field i (listing order, starting at 0), carries the
browser-reported tab fields through unchanged, and the router dispatches
exactly one getTabs call for it. -/
theorem list_tabs_indices (tabs : List Tab) :
    (listTabsEntries tabs).length = tabs.length
    ∧ (∀ (i : Nat) (e : TabEntry), (listTabsEntries tabs)[i]? = some e →
        e.index = i ∧ tabs[i]? = some (Tab.mk e.id e.title e.url e.type))
    ∧ (∀ (lib : ChromeLib) (t tmo : Int),
        executeBrowserAction lib
            (UseBrowserInput.mk BrowserAction.listTabs t none none tmo)
          = (lib.getTabs.map fun ts => renderTabEntries (listTabsEntries ts),
              [LibCall.getTabs])) := by
  refine ⟨by simp [listTabsEntries], ?_, fun lib t tmo => rfl⟩
  intro i e h
  simp only [listTabsEntries, List.getElem?_map, List.getElem?_enum] at h
  cases htab : tabs[i]? with
  | none => rw [htab] at h; simp at h
  | some tb =>
    rw [htab] at h
    simp only [Option.map_some'] at h
    have he := Option.some.inj h
    subst he
    exact ⟨rfl, by simp [htab]⟩

/-- Claim C6 witness: the index theorem applied to a concrete two-tab
listing at position 1. -/
theorem list_tabs_indices_witness :
    (listTabsEntries demoTabs).length = demoTabs.length
    ∧ (TabEntry.mk 1 ("B2") ("Second") ("http://b") ("page")).index = 1
    ∧ demoTabs[1]? = some (Tab.mk ("B2") ("Second") ("http://b") ("page")) := by
  refine ⟨(list_tabs_indices demoTabs).1, ?_, ?_⟩
  · exact ((list_tabs_indices demoTabs).2.1 1
      (TabEntry.mk 1 ("B2") ("Second") ("http://b") ("page")) rfl).1
  · exact ((list_tabs_indices demoTabs).2.1 1
      (TabEntry.mk 1 ("B2") ("Second") ("http://b") ("page")) rfl).2

/-- Claim C7: both schemas default the tab reference to 0 and the timeout
to 5000 when omitted, and reject a timeout above 60000, a negative timeout,
a negative tab index, and a non-integer tab index at input validation. -/
theorem schema_defaults_and_bounds :
    validateTabIndex none = Except.ok 0
    ∧ validateTimeout none = Except.ok 5000
    ∧ (∀ q : ℚ, 60000 < q → ∃ m, validateTimeout (some q) = Except.error m)
    ∧ (∀ q : ℚ, q < 0 → ∃ m, validateTimeout (some q) = Except.error m)
    ∧ (∀ q : ℚ, q < 0 → ∃ m, validateTabIndex (some q) = Except.error m)
    ∧ (∀ q : ℚ, q.den ≠ 1 → ∃ m, validateTabIndex (some q) = Except.error m)
    ∧ (∀ q : ℚ, q.den ≠ 1 → ∃ m, validateTimeout (some q) = Except.error m) := by
  refine ⟨rfl, rfl, ?_, ?_, ?_, ?_, ?_⟩
  · intro q hq
    simp only [validateTimeout]
    split_ifs with h1 h2 h3
    · exact absurd h3 (not_le.mpr hq)
    · exact ⟨_, rfl⟩
    · exact ⟨_, rfl⟩
    · exact ⟨_, rfl⟩
  · intro q hq
    simp only [validateTimeout]
    split_ifs with h1 h2 h3
    · exact absurd h2 (not_le.mpr hq)
    · exact absurd h2 (not_le.mpr hq)
    · exact ⟨_, rfl⟩
    · exact ⟨_, rfl⟩
  · intro q hq
    simp only [validateTabIndex]
    split_ifs with h1 h2
    · exact absurd h2 (not_le.mpr hq)
    · exact ⟨_, rfl⟩
    · exact ⟨_, rfl⟩
  · intro q hq
    simp only [validateTabIndex]
    split_ifs with h1 h2
    · exact absurd h1 hq
    · exact absurd h1 hq
    · exact ⟨_, rfl⟩
  · intro q hq
    simp only [validateTimeout]
    split_ifs with h1 h2 h3
    · exact absurd h1 hq
    · exact absurd h1 hq
    · exact absurd h1 hq
    · exact ⟨_, rfl⟩

/-- Claim C7 witness: defaults evaluated, and the bounds theorem applied at
timeout 60001, timeout -1, tab index -1 and tab index one half. -/
theorem schema_defaults_and_bounds_witness :
    validateTabIndex none = Except.ok 0
    ∧ validateTimeout none = Except.ok 5000
    ∧ (∃ m, validateTimeout (some 60001) = Except.error m)
    ∧ (∃ m, validateTimeout (some (-1)) = Except.error m)
    ∧ (∃ m, validateTabIndex (some (-1)) = Except.error m)
    ∧ (∃ m, validateTabIndex (some (mkRat 1 2)) = Except.error m) :=
  ⟨schema_defaults_and_bounds.1,
    schema_defaults_and_bounds.2.1,
    schema_defaults_and_bounds.2.2.1 60001 (by norm_num),
    schema_defaults_and_bounds.2.2.2.1 (-1) (by norm_num),
    schema_defaults_and_bounds.2.2.2.2.1 (-1) (by norm_num),
    schema_defaults_and_bounds.2.2.2.2.2.1 (mkRat 1 2) (by decide)⟩

/-- Claim C8 counterexample: a validation failure is returned as a plain
text content item with no structured kind field — it is byte-identical to
the result of a SUCCESSFUL eval whose page value happens to be the same
string, so the report does not structurally distinguish failures (let alone
their kinds) from successes. -/
theorem error_report_indistinguishable_from_success :
    (handleUseBrowser libStub true rawClickNoSelector).1
      = (handleUseBrowser libEvalErrText true rawEvalTitle).1
    ∧ (handleUseBrowser libStub true rawClickNoSelector).1
      = ToolResult.mk [ToolContent.mk ("text") ("Error: click requires selector")] :=
  ⟨rfl, rfl⟩

/-- Claim C8 (amended): the handler is total and always answers with a
single plain text content item; every failure of the parse, ensure-Chrome
or action stage is reported — not swallowed and not crashing the call — as
the flat text Error: followed by the human-readable message, the kind being
conveyed only inside that message string rather than as a structured
field. -/
theorem failures_reported_as_flat_text (lib : ChromeLib) (st : Bool)
    (raw : RawInput) :
    (∃ s, (handleUseBrowser lib st raw).1
        = ToolResult.mk [ToolContent.mk ("text") s])
    ∧ (∀ m, parseInput raw = Except.error m →
        (handleUseBrowser lib st raw).1 = errResult m)
    ∧ (∀ p m, parseInput raw = Except.ok p →
        (ensureChromeRunning lib st).1 = Except.error m →
        (handleUseBrowser lib st raw).1 = errResult m)
    ∧ (∀ p m, parseInput raw = Except.ok p →
        (ensureChromeRunning lib st).1 = Except.ok () →
        (executeBrowserAction lib p).1 = Except.error m →
        (handleUseBrowser lib st raw).1 = errResult m) := by
  refine ⟨?_, ?_, ?_, ?_⟩
  · rcases hP : parseInput raw with m | p
    · exact ⟨"Error: " ++ m, by simp [handleUseBrowser, hP, errResult]⟩
    · rcases hE : ensureChromeRunning lib st with ⟨exc, tr, st2⟩
      cases exc with
      | error me =>
        exact ⟨"Error: " ++ me, by simp [handleUseBrowser, hP, hE, errResult]⟩
      | ok u =>
        rcases hX : executeBrowserAction lib p with ⟨res, tr2⟩
        cases res with
        | error mx =>
          exact ⟨"Error: " ++ mx, by simp [handleUseBrowser, hP, hE, hX, errResult]⟩
        | ok s => exact ⟨s, by simp [handleUseBrowser, hP, hE, hX, okResult]⟩
  · intro m hm
    simp [handleUseBrowser, hm]
  · intro p m hp hE1
    rcases hE : ensureChromeRunning lib st with ⟨exc, tr, st2⟩
    rw [hE] at hE1
    simp only at hE1
    subst hE1
    simp [handleUseBrowser, hp, hE]
  · intro p m hp hE1 hX1
    rcases hE : ensureChromeRunning lib st with ⟨exc, tr, st2⟩
    rw [hE] at hE1
    simp only at hE1
    subst hE1
    rcases hX : executeBrowserAction lib p with ⟨res, tr2⟩
    rw [hX] at hX1
    simp only at hX1
    subst hX1
    simp [handleUseBrowser, hp, hE, hX]

/-- Claim C8 witness: the flat-text theorem applied to the selector-less
click request on the all-success oracle, with the action-stage failure
discharged concretely. -/
theorem failures_reported_as_flat_text_witness :
    (handleUseBrowser libStub true rawClickNoSelector).1
      = errResult ("click requires selector") :=
  (failures_reported_as_flat_text libStub true rawClickNoSelector).2.2.2
    (UseBrowserInput.mk BrowserAction.click 0 none none 5000)
    ("click requires selector") rfl rfl rfl

/-- Claim C9: the chromeStarted flag is monotone — ensureChromeRunning
never lowers it, and once it is true (in particular right after any call
that set it), every later call performs no I/O at all and returns
immediately, for ANY oracle — Chrome liveness is never re-checked and
Chrome is never restarted, even if it has since exited. -/
theorem chromeStarted_monotone_no_recheck (lib lib2 : ChromeLib) (st : Bool)
    (h : (ensureChromeRunning lib st).2.2 = true) :
    ensureChromeRunning lib2 (ensureChromeRunning lib st).2.2
      = (Except.ok (), [], true)
    ∧ (st = true → ensureChromeRunning lib st = (Except.ok (), [], true))
    ∧ (st = true → (ensureChromeRunning lib st).2.2 = true) := by
  refine ⟨?_, ?_, ?_⟩
  · rw [h]; simp [ensureChromeRunning]
  · intro hst; subst hst; simp [ensureChromeRunning]
  · intro hst; subst hst; simp [ensureChromeRunning]

/-- Claim C9 witness: after a first successful call (flag set via the
getTabs probe on the all-success oracle), a second call against a DEAD
Chrome oracle still does nothing and reports success. -/
theorem chromeStarted_monotone_no_recheck_witness :
    ensureChromeRunning libDead (ensureChromeRunning libStub false).2.2
      = (Except.ok (), [], true)
    ∧ ((false : Bool) = true →
        ensureChromeRunning libStub false = (Except.ok (), [], true))
    ∧ ((false : Bool) = true →
        (ensureChromeRunning libStub false).2.2 = true) :=
  chromeStarted_monotone_no_recheck libStub libDead false rfl

/-- Claim C10: an empty-string selector or empty-string payload is treated
by every action of both routers exactly like an absent parameter — in
particular click with selector set to the empty string fails with the
click-requires-selector error and type with an empty-string payload fails
with the type-requires-payload error — so no action is ever dispatched with
an empty selector or empty string payload. -/
theorem empty_string_param_like_missing (lib : ChromeLib)
    (p : UseBrowserInput) (q : WsInput) :
    executeBrowserAction lib
        (UseBrowserInput.mk p.action p.tab_index (some ("")) p.payload p.timeout)
      = executeBrowserAction lib
        (UseBrowserInput.mk p.action p.tab_index none p.payload p.timeout)
    ∧ executeBrowserAction lib
        (UseBrowserInput.mk p.action p.tab_index p.selector (some ("")) p.timeout)
      = executeBrowserAction lib
        (UseBrowserInput.mk p.action p.tab_index p.selector none p.timeout)
    ∧ buildChromeWsArgs
        (WsInput.mk q.action q.tab_index (some ("")) q.payload q.timeout)
      = buildChromeWsArgs
        (WsInput.mk q.action q.tab_index none q.payload q.timeout)
    ∧ buildChromeWsArgs
        (WsInput.mk q.action q.tab_index q.selector (some (Sum.inl (""))) q.timeout)
      = buildChromeWsArgs
        (WsInput.mk q.action q.tab_index q.selector none q.timeout)
    ∧ (executeBrowserAction lib
        (UseBrowserInput.mk BrowserAction.click 0 (some ("")) none 5000)).1
      = Except.error ("click requires selector")
    ∧ (executeBrowserAction lib
        (UseBrowserInput.mk BrowserAction.type 0 (some ("#q")) (some ("")) 5000)).1
      = Except.error ("type requires payload with text") := by
  obtain ⟨a, ti, sel, pay, tmo⟩ := p
  obtain ⟨b, tiB, selB, payB, tmoB⟩ := q
  refine ⟨?_, ?_, ?_, ?_, rfl, rfl⟩
  · cases a <;> rfl
  · cases a <;> rfl
  · cases b <;> rfl
  · cases b <;> rfl

end SuperpowersChrome
